import Mathlib

/-!
Verification of the GeoPy repository: a shallow embedding of the
Variable/Axis data model (src/geodata/base.py), the WSC gage-station
loader (src/datasets/WSC.py) and the plotting helpers
(src/plotting/misc.py), together with theorems settling the claims
about them.

Numeric payloads are modelled with exact rationals; failure is modelled
with the `Except` monad, one constructor of `PyError` per Python
exception kind raised by the source.
-/

namespace GeoPy

/-- The Python exception kinds raised by the source files. -/
inductive PyError where
  | variableError (msg : String)
  | dataError
  | attributeError (msg : String)
  | keyError (key : String)
  | assertionError (msg : String)
  | typeError
  | valueError
  | indexError (msg : String)
  | argumentError
  | notImplementedError (msg : String)
deriving Repr, DecidableEq

/-- A numpy array as used by the source: a shape, the flattened values,
and an optional mask (`some` models a `numpy.ma.MaskedArray`, with
`true` marking an invalid element).  The numpy dtype string kept by the
source is not modelled; no claim reads it. -/
structure NDArray where
  shape : List Nat
  values : List ℚ
  mask : Option (List Bool)
deriving Repr, DecidableEq

/-- `isinstance(arr, ma.MaskedArray)` -/
def NDArray.isMa (a : NDArray) : Bool := a.mask.isSome

/-- Apply an element-wise operation to the payload (numpy broadcasting of a
scalar over the flattened values). -/
def NDArray.mapValues (f : ℚ → ℚ) (a : NDArray) : NDArray :=
  { a with values := a.values.map f }

/-- The state of an `Axis` instance (base.py).  In the source an `Axis`
is a `Variable` that lists itself as its own sole axis; the embedding
flattens that one-node cycle into a record.  `coord` is the coordinate
vector (`data_array`); the `data` flag of the source is `coord.isSome`,
which `Axis.load`/`Axis.unload` keep in sync. -/
structure Axis where
  name : String
  units : String
  len : Nat
  coord : Option NDArray
deriving Repr, DecidableEq

/-- The assertion message of `Axis.updateLength` (base.py line 279-280):
it cites `len(self)` (the stored `len` attribute) and the given length. -/
def incompatibleLengthMsg (a : Axis) (n : Nat) : String :=
  "Coordinate vector of Axis instance " ++ a.name ++
    " is incompatible with given length: " ++ toString a.len ++ " != " ++ toString n

/-- `Axis.updateLength` (base.py lines 276-282): with a coordinate vector
loaded it is a pure consistency check of the given length against
`self.shape[0]` (an `AssertionError` on mismatch, before any mutation);
without one it simply stores the new length. -/
def Axis.updateLength (a : Axis) (n : Nat) : Except PyError Axis :=
  match a.coord with
  | some c =>
      if n = c.shape.headD 0 then Except.ok a
      else Except.error (PyError.assertionError (incompatibleLengthMsg a n))
  | none => Except.ok { a with len := n }

/-- `for ax, n in zip(self.axes, self.shape): ax.updateLength(n)` --
`zip` truncates at the shorter list, leaving surplus axes untouched. -/
def updateAxesLengths : List Axis → List Nat → Except PyError (List Axis)
  | [], _ => Except.ok []
  | ax :: axs, [] => Except.ok (ax :: axs)
  | ax :: axs, n :: ns => do
      let ax2 ← ax.updateLength n
      let rest ← updateAxesLengths axs ns
      Except.ok (ax2 :: rest)

/-- The state of a `Variable` instance (base.py).  The numpy dtype
string is not modelled; `atts` and `plotatts` hold string-valued
entries (the only kind any claim touches). -/
structure Var where
  name : String
  units : String
  axes : List Axis
  data_array : Option NDArray
  data : Bool
  shape : Option (List Nat)
  masked : Bool
  atts : List (String × String)
  plotatts : List (String × String)
deriving Repr, DecidableEq

/-- `Variable.load` (base.py lines 156-173): wraps the payload in a
masked array when an explicit mask is given, sets the `masked` flag if
the stored payload is a masked array (never clears it), records
shape and the data flag, asserts that the axis count equals the payload
dimensionality, and reconciles each axis length.  The source mutates
the instance before the assertion; the embedding returns the error
without a state, which no claim distinguishes. -/
def Var.load (v : Var) (d : NDArray) (mask : Option (List Bool)) : Except PyError Var := do
  let arr := match mask with
    | some m => { d with mask := some m }
    | none => d
  let masked := if arr.isMa then true else v.masked
  if v.axes.length = d.shape.length then do
    let axs ← updateAxesLengths v.axes d.shape
    Except.ok { v with data_array := some arr, data := true,
                       shape := some d.shape, masked := masked, axes := axs }
  else
    Except.error (PyError.assertionError "Dimensions of data array and variable must be identical!")

/-- `Variable.unload` (base.py lines 175-179): unlink the payload and
clear the data flag; shape (and the masked flag) are retained. -/
def Var.unload (v : Var) : Var :=
  { v with data_array := none, data := false }

/-- `Variable.__iadd__` (base.py lines 181-187). -/
def Var.iadd (v : Var) (a : ℚ) : Except PyError Var :=
  if v.data then
    Except.ok { v with data_array := v.data_array.map (NDArray.mapValues (fun x => x + a)) }
  else Except.error PyError.dataError

/-- `Variable.__isub__` (base.py lines 189-194). -/
def Var.isub (v : Var) (a : ℚ) : Except PyError Var :=
  if v.data then
    Except.ok { v with data_array := v.data_array.map (NDArray.mapValues (fun x => x - a)) }
  else Except.error PyError.dataError

/-- `Variable.__imul__` (base.py lines 196-201). -/
def Var.imul (v : Var) (a : ℚ) : Except PyError Var :=
  if v.data then
    Except.ok { v with data_array := v.data_array.map (NDArray.mapValues (fun x => x * a)) }
  else Except.error PyError.dataError

/-- `Variable.__idiv__` (base.py lines 203-208). -/
def Var.idiv (v : Var) (a : ℚ) : Except PyError Var :=
  if v.data then
    Except.ok { v with data_array := v.data_array.map (NDArray.mapValues (fun x => x / a)) }
  else Except.error PyError.dataError

/-- The `axes` constructor argument: either a sequence of existing
`Axis` objects or a sequence of bare names (the source requires all
elements to be of the same kind). -/
inductive AxesArg where
  | axisObjs : List Axis → AxesArg
  | names : List String → AxesArg
deriving Repr, DecidableEq

def axesArgLength : AxesArg → Nat
  | AxesArg.axisObjs l => l.length
  | AxesArg.names l => l.length

/-- Keys present in the instance `__dict__` when `Variable.__init__`
reaches the axes check (base.py lines 49-56): `atts` and `plotatts` are
only added later, at lines 78 and 82. -/
def initKeys : List String := ["name", "units", "data_array", "data", "shape", "dtype", "masked"]

/-- Outcome of one attribute read through `Variable.__getattr__`. -/
inductive AttrLookup where
  | found
  | keyErrAtts
  | keyErrPlotatts
  | attrErr
deriving Repr, DecidableEq

/-- `Variable.__getattr__` (base.py lines 84-94): instance `__dict__`
first, then the `atts` entries, then the `plotatts` entries, else
`AttributeError`.  The dictionary accesses `self.__dict__[atts]` and
`self.__dict__[plotatts]` are unguarded, so when those keys are not yet
in the instance dictionary the lookup raises `KeyError` instead. -/
def varGetattr (dictKeys attsKeys plotattsKeys : List String) (nm : String) : AttrLookup :=
  if nm ∈ dictKeys then AttrLookup.found
  else if "atts" ∉ dictKeys then AttrLookup.keyErrAtts
  else if nm ∈ attsKeys then AttrLookup.found
  else if "plotatts" ∉ dictKeys then AttrLookup.keyErrPlotatts
  else if nm ∈ plotattsKeys then AttrLookup.found
  else AttrLookup.attrErr

/-- The global per-variable-name plot-attribute registry
(`variablePlotatts`, imported from `atmdyn.properties`).  The module is
an external boundary dependency whose contents are not in this source
set and which no claim reads; modelled as empty. -/
def variablePlotatts : List (String × List (String × String)) := []

/-- Default `atts` mapping (base.py line 77). -/
def attsDefault (name units : String) (atts : Option (List (String × String))) :
    List (String × String) :=
  match atts with
  | some a => a
  | none => [("name", name), ("units", units)]

/-- Default `plotatts` mapping (base.py lines 79-81). -/
def plotattsDefault (name units : String) (plotatts : Option (List (String × String))) :
    List (String × String) :=
  match plotatts with
  | some p => p
  | none =>
      match variablePlotatts.lookup name with
      | some p => p
      | none => [("plotname", name), ("plotunits", units), ("plottitle", name)]

/-- The body of `Variable.__init__` once axes have been supplied
(base.py lines 58-82): reconcile axis lengths with a present payload
(or derive the shape from fully-sized axes), synthesize placeholder
axes from bare names, then load the payload and seed the attribute
mappings.  Note `Axis(name=ax, len=n)` at line 66: `len` is not an
accepted keyword anywhere in the constructor chain, so building a
`Variable` from bare axis names together with a payload raises
`TypeError` in Python. -/
def initWithAxes (name units : String) (arg : AxesArg) (data : Option NDArray)
    (mask : Option (List Bool)) (atts plotatts : Option (List (String × String))) :
    Except PyError Var := do
  let (axs, shape0) ←
    match arg, data with
    | AxesArg.axisObjs axs, some d => do
        let axs2 ← updateAxesLengths axs d.shape
        Except.ok (axs2, some d.shape)
    | AxesArg.axisObjs axs, none =>
        if axs.all (fun ax => ax.len ≠ 0) then
          Except.ok (axs, some (axs.map Axis.len))
        else Except.ok (axs, (none : Option (List Nat)))
    | AxesArg.names _, some _ => Except.error PyError.typeError
    | AxesArg.names ns, none =>
        Except.ok (ns.map (fun nm => ({ name := nm, units := "N/A", len := 0, coord := none } : Axis)),
                   (none : Option (List Nat)))
  let v0 : Var := { name := name, units := units, axes := axs, data_array := none,
                    data := false, shape := shape0, masked := false,
                    atts := [], plotatts := [] }
  let v1 ← match data with
    | some d => v0.load d mask
    | none => Except.ok v0
  Except.ok { v1 with atts := attsDefault name units atts,
                      plotatts := plotattsDefault name units plotatts }

/-- `Variable.__init__` (base.py lines 36-82).  When `axes` is absent
the source executes
`raise VariableError, (fmt) % (self.var.__class__.__name__, self.name)`;
evaluating `self.var` runs `__getattr__` over an instance dictionary
that does not yet hold `atts`, so `self.__dict__[atts]` raises
`KeyError(atts)` before the `VariableError` is ever built. -/
def Variable.init (name units : String) (axes : Option AxesArg) (data : Option NDArray)
    (mask : Option (List Bool)) (atts plotatts : Option (List (String × String))) :
    Except PyError Var :=
  match axes with
  | none =>
      match varGetattr initKeys [] [] "var" with
      | AttrLookup.found =>
          Except.error (PyError.variableError
            ("Cannot initialize instance " ++ name ++ ": no axes declared"))
      | AttrLookup.keyErrAtts => Except.error (PyError.keyError "atts")
      | AttrLookup.keyErrPlotatts => Except.error (PyError.keyError "plotatts")
      | AttrLookup.attrErr => Except.error (PyError.attributeError "var")
  | some arg =>
      match data with
      | some d =>
          if axesArgLength arg ≠ d.shape.length then
            Except.error (PyError.assertionError "Dimensions of data array and axes are note compatible!")
          else initWithAxes name units arg (some d) mask atts plotatts
      | none => initWithAxes name units arg none mask atts plotatts

/-- The mutating operations a `Variable` exposes after construction. -/
inductive VarOp where
  | load (d : NDArray) (m : Option (List Bool))
  | unload
  | iadd (a : ℚ)
  | isub (a : ℚ)
  | imul (a : ℚ)
  | idiv (a : ℚ)
deriving Repr, DecidableEq

def applyVarOp (v : Var) : VarOp → Except PyError Var
  | VarOp.load d m => v.load d m
  | VarOp.unload => Except.ok v.unload
  | VarOp.iadd a => v.iadd a
  | VarOp.isub a => v.isub a
  | VarOp.imul a => v.imul a
  | VarOp.idiv a => v.idiv a

/-! ## WSC gage-station loader (src/datasets/WSC.py) -/

/-- `data_root` is imported from `datasets.common`, an external boundary
dependency; its concrete value is a site configuration string that no
claim depends on. -/
def data_root : String := "data_root"

/-- `root_folder` (WSC.py line 27). -/
def root_folder : String := data_root ++ "/" ++ "WSC" ++ "/"

/-- Does the first list occur at the head of the second? -/
def headMatch : List Char → List Char → Bool
  | [], _ => true
  | _ :: _, [] => false
  | a :: as, b :: bs => a == b && headMatch as bs

/-- Does the first list occur anywhere inside the second? -/
def subSearch : List Char → List Char → Bool
  | sub, [] => headMatch sub []
  | sub, c :: rest => headMatch sub (c :: rest) || subSearch sub rest

/-- Python substring containment `sub in s`. -/
def strContains (s sub : String) : Bool := subSearch sub.toList s.toList

/-- The state of a `GageStation` instance (WSC.py lines 116-135).  The
class attributes `meta_file` and `monthly_file` both default to
`None`. -/
structure GageStation where
  folder : String
  name : String
  meta_file : Option String
  monthly_file : Option String
deriving Repr, DecidableEq

def meta_ext : String := "_Metadata.csv"

def monthly_ext : String := "_Monthly.csv"

/-- `GageStation.__init__` (WSC.py lines 123-135).  `fileExists` stands
for `os.path.isfile` over the station folder.  Notes on the source:
the two `if not os.path.isdir(folder): IOError(folder)` lines construct
an `IOError` without raising it, so they have no effect and are not
modelled; and the second file check (line 135) assigns its result to
`meta_file` again, so `monthly_file` is never set. -/
def GageStation.init (fileExists : String → Bool) (basin river name folder : Option String) :
    Except PyError GageStation :=
  match name with
  | none => Except.error PyError.argumentError
  | some nm0 =>
      let fld := match folder with
        | some f => f
        | none => root_folder ++ "/Basins/" ++ (match basin with
            | some b => b
            | none => "None") ++ "/"
      let nm := match river with
        | some r => if ¬ strContains nm0 r then r ++ "_" ++ nm0 else nm0
        | none => nm0
      let meta1 : Option String :=
        if fileExists (fld ++ "/" ++ (nm ++ meta_ext)) then some (nm ++ meta_ext) else none
      let meta2 : Option String :=
        if fileExists (fld ++ "/" ++ (nm ++ monthly_ext)) then some (nm ++ monthly_ext) else meta1
      Except.ok { folder := fld, name := nm, meta_file := meta2, monthly_file := none }

/-- `numpy.arange(start, stop, step)` for a positive step. -/
def arange (start stop step : Nat) : List Nat :=
  (List.range ((stop - start + step - 1) / step)).map (fun k => start + step * k)

/-- The column selection of the monthly-values CSV read
(WSC.py line 174): `usecols=np.arange(4, 28, 2)`. -/
def usecols : List Nat := arange 4 28 2

/-- The column selection as the claim words it: every second column
starting at column index 4 up to (not including) column 26.  Stated
from the claim text, for comparison with `usecols`. -/
def usecolsClaimed : List Nat := arange 4 26 2

/-- The per-cell semantics of the monthly-values read (WSC.py lines
173-177): a cell that `genfromtxt` could not parse is masked
(`usemask=True` with `filling_values=nan`); `np.ma.masked_less(data, 10)`
then masks every value below 10; finally `data *= 1000.` scales the
remaining values (m^3/s to kg/s). -/
def processCell : Option ℚ → Option ℚ
  | none => none
  | some v => if v < 10 then none else some (v * 1000)

/-- The raw data matrix built from the monthly-values CSV (WSC.py lines
173-177): the header row is skipped (`skip_header=1`) and each
remaining year-row contributes the processed cells of the selected
columns.  A cell beyond the end of the row is treated as unparseable. -/
def readMonthlyCSV (table : List (List (Option ℚ))) : List (List (Option ℚ)) :=
  (table.drop 1).map (fun row => usecols.map (fun c => processCell (row.getD c none)))

/-! ## Plotting helpers (src/plotting/misc.py) -/

/-- The plot-attribute record carried by a variable handed to
`getPlotValues` (the `var.plot` attribute of the newer `Variable`
class, an external boundary dependency; fields as read by the
source: `name`, `units`, `scalefactor`, optional `offset`). -/
structure PlotAtts where
  name : String
  units : String
  scalefactor : ℚ
  offset : Option ℚ
deriving Repr, DecidableEq

/-- The face a variable presents to `getPlotValues`: its own
`name`/`units`, its `atts` entries for name and units, the optional
plot-attribute record, and the payload returned by
`getArray(unmask=True, copy=True)` (modelled flat). -/
structure PlotVar where
  name : String
  units : String
  attsName : String
  attsUnits : String
  plot : Option PlotAtts
  values : List ℚ
deriving Repr, DecidableEq

/-- Python `val[:1]`. -/
def headSlice (l : List ℚ) : List ℚ :=
  match l with
  | [] => []
  | x :: _ => [x]

/-- Python `val[-1:]`. -/
def lastSlice (l : List ℚ) : List ℚ :=
  match l.getLast? with
  | some x => [x]
  | none => []

/-- `numpy.diff`: adjacent first differences. -/
def diffList : List ℚ → List ℚ
  | [] => []
  | [_] => []
  | a :: b :: rest => (b - a) :: diffList (b :: rest)

/-- The post-processing tail of `getPlotValues` (misc.py lines 64-71):
`val.squeeze()` drops length-one dimensions and is the identity on the
flat payload; optional smoothing applies the external smoothing
function; the optional periodic wrap extrapolates one coordinate step
beyond each boundary for axis values and repeats the opposite-end
sample for data values. -/
def postProcess (lsmooth lperi laxis : Bool) (smoothFn : List ℚ → List ℚ) (val : List ℚ) :
    List ℚ :=
  let val := if lsmooth then smoothFn val else val
  if lperi then
    if laxis then
      let delta := diffList val
      List.zipWith (fun x d => x - d) (headSlice val) (headSlice delta) ++ val ++
        List.zipWith (fun x d => x + d) (lastSlice val) (lastSlice delta)
    else lastSlice val ++ val ++ headSlice val
  else val

/-- `getPlotValues` (misc.py lines 46-73): resolve the display name
from the plot attributes when present (checking `checkname` only
there - the source comment reads `only check plotname!`), scale by the
plot scale factor on a units mismatch and add the plot offset when
present, resolve the units, check `checkunits` against the resolved
units, then post-process. -/
def getPlotValues (var : PlotVar) (checkunits checkname : Option String)
    (lsmooth lperi laxis : Bool) (smoothFn : List ℚ → List ℚ) :
    Except PyError (List ℚ × String × String) :=
  let nameRes : Except PyError String :=
    match var.plot, checkname with
    | some p, some cn =>
        if p.name ≠ cn then
          Except.error (PyError.variableError
            ("Expected variable name " ++ cn ++ ", found " ++ p.name ++ "."))
        else Except.ok p.name
    | some p, none => Except.ok p.name
    | none, _ => Except.ok var.attsName
  match nameRes with
  | Except.error e => Except.error e
  | Except.ok varname =>
      let val := var.values
      let val := match var.plot with
        | some p => if var.units ≠ p.units then val.map (fun x => x * p.scalefactor) else val
        | none => val
      let varunits := match var.plot with
        | some p => p.units
        | none => var.attsUnits
      let val := match var.plot with
        | some p =>
            (match p.offset with
             | some off => val.map (fun x => x + off)
             | none => val)
        | none => val
      match checkunits with
      | some cu =>
          if varunits ≠ cu then
            Except.error (PyError.variableError
              ("Units for variable " ++ var.name ++ ": expected " ++ cu ++ ", found " ++ varunits ++ "."))
          else Except.ok (postProcess lsmooth lperi laxis smoothFn val, varunits, varname)
      | none => Except.ok (postProcess lsmooth lperi laxis smoothFn val, varunits, varname)

/-- The units resolution rule of `getPlotValues`: plot units when the
variable carries plot attributes, raw attribute units otherwise. -/
def resolvedUnits (var : PlotVar) : String :=
  match var.plot with
  | some p => p.units
  | none => var.attsUnits

/-- Python list assignment `strtck[idx] = v` index normalization:
a negative index counts from the end of the 8-slot template. -/
def pyIdx (idx : Int) : Nat := (if idx < 0 then idx + 8 else idx).toNat

/-- The order-of-magnitude decoration of a tick label (misc.py lines
93-94): append `power` zeros for a positive power, or format as a
leading `0.` plus `-1-power` zeros for a negative one. -/
def decorate (power : Int) (s : String) : String :=
  if 0 < power then s ++ String.join (List.replicate power.toNat "0")
  else if power < 0 then "0." ++ String.join (List.replicate (-1 - power).toNat "0") ++ s
  else s

/-- The loop body of `logTicks` (misc.py lines 88-94): a tick that is
8 or larger raises `ValueError` (the `isinstance` guard on the same
line is vacuous in the typed embedding); the label is written at
position `i - 2` of the 8-slot template, which Python resolves from
the end of the list when negative and rejects with `IndexError` below
-8.  The guard `if i in ticks` is vacuously true for a loop variable
drawn from `ticks`. -/
def logTicksLoop (power : Int) : List String → List Int → Except PyError (List String)
  | strtck, [] => Except.ok strtck
  | strtck, i :: rest =>
      if 8 ≤ i then Except.error PyError.valueError
      else if i - 2 < -8 then Except.error (PyError.indexError "list assignment index out of range")
      else logTicksLoop power (strtck.set (pyIdx (i - 2)) (decorate power (toString i))) rest

/-- `logTicks` (misc.py lines 77-96) for the default `base=None`; when
a base is given the source recomputes `power` as
`int(round(log(base)/log(10)))`, a transcendental path no claim
exercises. -/
def logTicks (ticks : List Int) (power : Int) : Except PyError (List String) :=
  logTicksLoop power (List.replicate 8 "") ticks

/-- `nTicks` (misc.py line 101): the wavenumber preset. -/
def nTicks (power : Int) : Except PyError (List String) := logTicks [2, 4, 6] power

/-- `pTicks` (misc.py line 105): the pressure-level preset. -/
def pTicks (power : Int) : Except PyError (List String) := logTicks [2, 3, 5, 7] power

/-! ## Concrete instances used by witnesses and counterexamples -/

/-- A monthly-values CSV year-row with 28 cells holding k+3 in cell k. -/
def cRow1 : List (Option ℚ) := (List.range 28).map (fun k => some ((k : ℚ) + 3))

/-- A monthly-values CSV table: a header row and one year-row. -/
def cTable1 : List (List (Option ℚ)) := [[], cRow1]

/-- An axis with no coordinate vector, as the test suite builds before sizing. -/
def cAx3 : Axis := { name := "t", units := "none", len := 0, coord := none }

/-- A small payload over one axis of length two. -/
def cP3 : NDArray := { shape := [2], values := [1, 2], mask := none }

/-- The `Variable` that `Variable.init "test" "n/a" [cAx3] cP3` builds. -/
def cVar3 : Var :=
  { name := "test", units := "n/a",
    axes := [{ name := "t", units := "none", len := 2, coord := none }],
    data_array := some cP3, data := true, shape := some [2], masked := false,
    atts := [("name", "test"), ("units", "n/a")],
    plotatts := [("plotname", "test"), ("plotunits", "n/a"), ("plottitle", "test")] }

/-- A loaded scalar-like `Variable` for the arithmetic round trip. -/
def cVar4 : Var :=
  { name := "v", units := "u", axes := [],
    data_array := some { shape := [1], values := [5], mask := none },
    data := true, shape := some [1], masked := false, atts := [], plotatts := [] }

/-- A `Variable` whose payload has once been masked. -/
def cVar10 : Var :=
  { name := "w", units := "u", axes := [],
    data_array := some { shape := [1], values := [5], mask := some [false] },
    data := true, shape := some [1], masked := true, atts := [], plotatts := [] }

/-- An axis with a loaded 3-point coordinate vector. -/
def cAx7 : Axis :=
  { name := "x", units := "none", len := 3,
    coord := some { shape := [3], values := [1, 2, 3], mask := none } }

/-- An axis with no coordinate vector. -/
def cAx7n : Axis := { name := "y", units := "none", len := 0, coord := none }

/-- A plot variable without plot attributes, display name resolved from `atts`. -/
def cexVar6 : PlotVar :=
  { name := "foo", units := "u", attsName := "foo", attsUnits := "u",
    plot := none, values := [1] }

/-- A plot variable without plot attributes and units `C`. -/
def wVar6 : PlotVar :=
  { name := "T", units := "C", attsName := "T", attsUnits := "C",
    plot := none, values := [1] }

/-! ## Helper lemmas -/

/-- A successful `updateLength` is idempotent: running it again on the
result with the same length succeeds and changes nothing. -/
theorem updateLength_idem {a a2 : Axis} {n : Nat} (h : a.updateLength n = Except.ok a2) :
    a2.updateLength n = Except.ok a2 := by
  cases hc : a.coord with
  | none =>
      simp only [Axis.updateLength, hc, Except.ok.injEq] at h
      subst h
      simp [Axis.updateLength, hc]
  | some c =>
      simp only [Axis.updateLength, hc] at h
      split at h
      next hn =>
        simp only [Except.ok.injEq] at h
        subst h
        simp [Axis.updateLength, hc, hn]
      next hn => simp at h

/-- A successful axis-length reconciliation is idempotent. -/
theorem updateAxesLengths_idem {axs axs2 : List Axis} {ns : List Nat}
    (h : updateAxesLengths axs ns = Except.ok axs2) :
    updateAxesLengths axs2 ns = Except.ok axs2 := by
  induction axs generalizing axs2 ns with
  | nil =>
      unfold updateAxesLengths at h
      simp only [Except.ok.injEq] at h
      subst h
      rfl
  | cons ax axs ih =>
      cases ns with
      | nil =>
          unfold updateAxesLengths at h
          simp only [Except.ok.injEq] at h
          subst h
          rfl
      | cons n ns =>
          unfold updateAxesLengths at h
          simp only [bind, Except.bind] at h
          cases h1 : ax.updateLength n with
          | error e => rw [h1] at h; cases h
          | ok ax2 =>
              rw [h1] at h
              cases h2 : updateAxesLengths axs ns with
              | error e => rw [h2] at h; cases h
              | ok rest =>
                  rw [h2] at h
                  simp only [Except.ok.injEq] at h
                  subst h
                  unfold updateAxesLengths
                  simp only [bind, Except.bind]
                  rw [updateLength_idem h1, ih h2]

/-- Axis-length reconciliation preserves the number of axes. -/
theorem updateAxesLengths_length {axs axs2 : List Axis} {ns : List Nat}
    (h : updateAxesLengths axs ns = Except.ok axs2) : axs2.length = axs.length := by
  induction axs generalizing axs2 ns with
  | nil =>
      unfold updateAxesLengths at h
      simp only [Except.ok.injEq] at h
      subst h
      rfl
  | cons ax axs ih =>
      cases ns with
      | nil =>
          unfold updateAxesLengths at h
          simp only [Except.ok.injEq] at h
          subst h
          rfl
      | cons n ns =>
          unfold updateAxesLengths at h
          simp only [bind, Except.bind] at h
          cases h1 : ax.updateLength n with
          | error e => rw [h1] at h; cases h
          | ok ax2 =>
              rw [h1] at h
              cases h2 : updateAxesLengths axs ns with
              | error e => rw [h2] at h; cases h
              | ok rest =>
                  rw [h2] at h
                  simp only [Except.ok.injEq] at h
                  subst h
                  simp [ih h2]

/-! ## Claim theorems -/

/-- C1 counterexample: the monthly-values read selects every second
column from index 4 up to (not including) 28 - twelve columns, the last
of which is column 26 - whereas the column set worded by the claim
(stride 2 from index 4 up to, not including, 26) has only eleven
columns; the two selections differ, so the claim as stated is false of
the code. -/
theorem usecols_cex :
    usecols = [4, 6, 8, 10, 12, 14, 16, 18, 20, 22, 24, 26] ∧
    usecolsClaimed = [4, 6, 8, 10, 12, 14, 16, 18, 20, 22, 24] ∧
    usecols ≠ usecolsClaimed := by
  exact ⟨by decide, by decide, by decide⟩

/-- C1 (amended): for every well-formed monthly-values CSV table,
`loadGageStation` builds the raw data matrix by taking every second
column starting at column index 4 up to (not including) column 28 -
i.e. columns 4, 6, ..., 26, exactly 12 monthly columns per year-row
(the header row being skipped); every read value below 10 is masked as
invalid, and every remaining value is multiplied by 1000. -/
theorem readMonthlyCSV_spec (table : List (List (Option ℚ))) (i : Nat) (row : List (Option ℚ))
    (hrow : (table.drop 1).get? i = some row) :
    ∃ out, (readMonthlyCSV table).get? i = some out ∧ out.length = 12 ∧
      (∀ j, j < 12 → out.get? j = some (processCell (row.getD (4 + 2 * j) none))) ∧
      (∀ v : ℚ, v < 10 → processCell (some v) = none) ∧
      (∀ v : ℚ, ¬ v < 10 → processCell (some v) = some (v * 1000)) ∧
      processCell none = none := by
  refine ⟨usecols.map (fun c => processCell (row.getD c none)), ?_, ?_, ?_, ?_, ?_, rfl⟩
  · unfold readMonthlyCSV
    rw [List.get?_map, hrow]
    rfl
  · rw [List.length_map]
    decide
  · intro j hj
    rw [List.get?_map]
    have hcol : usecols.get? j = some (4 + 2 * j) := by
      unfold usecols arange
      rw [List.get?_map, List.get?_range (by omega : j < (28 - 4 + 2 - 1) / 2)]
      rfl
    rw [hcol]
    rfl
  · intro v hv
    simp [processCell, hv]
  · intro v hv
    simp [processCell, hv]

/-- C1 witness: the amended reading applied to a concrete two-row
table whose year-row holds k+3 in cell k; cells 4 and 6 (values 7 and
9) are masked, the remaining selected cells are scaled by 1000. -/
theorem readMonthlyCSV_spec_witness :
    ∃ out, (readMonthlyCSV cTable1).get? 0 = some out ∧ out.length = 12 ∧
      (∀ j, j < 12 → out.get? j = some (processCell (cRow1.getD (4 + 2 * j) none))) ∧
      (∀ v : ℚ, v < 10 → processCell (some v) = none) ∧
      (∀ v : ℚ, ¬ v < 10 → processCell (some v) = some (v * 1000)) ∧
      processCell none = none :=
  readMonthlyCSV_spec cTable1 0 cRow1 rfl

/-- C2: constructing a `Variable` with the axes argument absent fails,
for every combination of the remaining constructor arguments - but with
`KeyError(atts)`, not with the `no axes declared` `VariableError` the
source intends: the raise statement reads `self.var`, which runs
`__getattr__` before `atts` is in the instance dictionary. -/
theorem variable_init_no_axes (name units : String) (data : Option NDArray)
    (mask : Option (List Bool)) (atts plotatts : Option (List (String × String))) :
    Variable.init name units none data mask atts plotatts =
      Except.error (PyError.keyError "atts") := rfl

/-- C5: in a station folder containing both `<name>_Metadata.csv` and
`<name>_Monthly.csv`, the `GageStation` constructor of the second
design leaves `monthly_file` unset and overwrites `meta_file` with the
monthly-values filename: the second presence check stores its result
into `meta_file` again (the copy/paste slip noted in the spec), so the
two presence fields are not recorded independently as the claim
states. -/
theorem gageStation_monthly_overwrites_meta :
    GageStation.init (fun _ => true) none none (some "Station") (some "F") =
      Except.ok { folder := "F", name := "Station",
                  meta_file := some "Station_Monthly.csv", monthly_file := none } := rfl

/-- C7: for every `Axis` with a coordinate vector loaded,
`updateLength n` with `n` different from the vector length fails with
the incompatible-length assertion citing both values (the stored `len`
and the requested length) and changes nothing, while the matching
length succeeds unchanged; for every `Axis` without a coordinate
vector, `updateLength n` simply stores `n` as the new length. -/
theorem axis_updateLength_spec (a : Axis) (n : Nat) :
    (∀ c, a.coord = some c → n ≠ c.shape.headD 0 →
        a.updateLength n = Except.error (PyError.assertionError (incompatibleLengthMsg a n))) ∧
    (∀ c, a.coord = some c → n = c.shape.headD 0 → a.updateLength n = Except.ok a) ∧
    (a.coord = none → a.updateLength n = Except.ok { a with len := n }) := by
  refine ⟨fun c hc hn => ?_, fun c hc hn => ?_, fun hc => ?_⟩
  · simp only [Axis.updateLength, hc]
    rw [if_neg hn]
  · simp only [Axis.updateLength, hc]
    rw [if_pos hn]
  · simp only [Axis.updateLength, hc]

/-- C7 witness: the three behaviours at concrete axes - a 3-point
coordinate axis rejects length 5 and accepts length 3; a bare axis
adopts length 7. -/
theorem axis_updateLength_witness :
    cAx7.updateLength 5 = Except.error (PyError.assertionError (incompatibleLengthMsg cAx7 5)) ∧
    cAx7.updateLength 3 = Except.ok cAx7 ∧
    cAx7n.updateLength 7 = Except.ok { cAx7n with len := 7 } :=
  ⟨(axis_updateLength_spec cAx7 5).1 { shape := [3], values := [1, 2, 3], mask := none } rfl
      (by decide),
   (axis_updateLength_spec cAx7 3).2.1 { shape := [3], values := [1, 2, 3], mask := none } rfl
      (by decide),
   (axis_updateLength_spec cAx7n 7).2.2 rfl⟩

/-- C8 counterexample: `logTicks [8]` fails with `ValueError` although
8 is one of the literal integers 2 through 9 the claim says succeed,
and `logTicks [1]` succeeds (writing the label at the Python-negative
position -1, i.e. slot 7) although the claim says every element outside
2..9 fails. -/
theorem logTicks_cex :
    logTicks [8] 0 = Except.error PyError.valueError ∧
    logTicks [1] 0 = Except.ok ["", "", "", "", "", "", "", "1"] := ⟨rfl, rfl⟩

/-- C9: with default base and power, the `nTicks` preset
(`logTicks [2,4,6]`) returns exactly the 8-element sequence
2,'',4,'',6,'','','' and the `pTicks` preset (`logTicks [2,3,5,7]`)
returns exactly 2,3,'',5,'',7,'',''. -/
theorem ticks_presets :
    nTicks 0 = Except.ok ["2", "", "4", "", "6", "", "", ""] ∧
    pTicks 0 = Except.ok ["2", "3", "", "5", "", "7", "", ""] := ⟨rfl, rfl⟩

/-- C4: for every `Variable` with a loaded payload, the in-place
sequence add 2, subtract 2, multiply by 2, divide by 2 returns the
variable with a payload element-wise equal to the original (exactly,
in the rational-valued model). -/
theorem arithmetic_roundtrip (v : Var) (h : v.data = true) :
    (v.iadd 2).bind (fun u1 => (u1.isub 2).bind (fun u2 =>
      (u2.imul 2).bind (fun u3 => u3.idiv 2))) = Except.ok v := by
  have hval : ∀ o : Option NDArray,
      (((o.map (NDArray.mapValues (fun x => x + 2))).map
        (NDArray.mapValues (fun x => x - 2))).map
        (NDArray.mapValues (fun x => x * 2))).map
        (NDArray.mapValues (fun x => x / 2)) = o := by
    intro o
    cases o with
    | none => rfl
    | some a =>
        cases a with
        | mk sh vs mk0 =>
            simp only [Option.map_some', NDArray.mapValues, List.map_map,
              Option.some.injEq, NDArray.mk.injEq, true_and, and_true]
            calc vs.map ((fun x => x / 2) ∘ (fun x => x * 2) ∘ (fun x => x - 2) ∘ (fun x => x + 2))
                = vs.map id := List.map_congr_left (fun x _ => by
                    simp only [Function.comp, id]
                    ring)
              _ = vs := List.map_id vs
  obtain ⟨nm, un, axs, da, dt, sh, mk0, at0, pl0⟩ := v
  have h2 : dt = true := h
  subst h2
  simp only [Var.iadd, Var.isub, Var.imul, Var.idiv, if_true, Except.bind]
  rw [hval]

/-- C4 witness: the round trip at a concrete loaded variable. -/
theorem arithmetic_roundtrip_witness :
    (cVar4.iadd 2).bind (fun u1 => (u1.isub 2).bind (fun u2 =>
      (u2.imul 2).bind (fun u3 => u3.idiv 2))) = Except.ok cVar4 :=
  arithmetic_roundtrip cVar4 rfl

/-- C10: the masked flag is monotone after construction: every
successful operation preserves `masked = true`; `load` sets it whenever
an explicit mask is given or the attached payload is already a masked
array; and `unload` leaves it unchanged (so a later load of a plain
array leaves it set). -/
theorem masked_flag_monotone (v : Var) (op : VarOp) (v2 : Var)
    (h : applyVarOp v op = Except.ok v2) :
    (v.masked = true → v2.masked = true) ∧
    (∀ d m, op = VarOp.load d m → (m.isSome ∨ d.mask.isSome) → v2.masked = true) ∧
    (op = VarOp.unload → v2.masked = v.masked) := by
  cases op with
  | load d m =>
      simp only [applyVarOp, Var.load] at h
      split at h
      next hlen =>
        simp only [bind, Except.bind] at h
        cases hax : updateAxesLengths v.axes d.shape with
        | error e => rw [hax] at h; simp at h
        | ok axs =>
            rw [hax] at h
            simp only [Except.ok.injEq] at h
            subst h
            refine ⟨fun hm => ?_, ?_, fun heq => by simp at heq⟩
            · simp only [hm]
              split <;> rfl
            · rintro d2 m2 heq hsm
              injection heq with hd hm2
              subst hd
              subst hm2
              cases m with
              | some mm => simp [NDArray.isMa]
              | none =>
                  cases hsm with
                  | inl h0 => simp at h0
                  | inr h0 => simp [NDArray.isMa, h0]
      next hlen => simp at h
  | unload =>
      simp only [applyVarOp, Except.ok.injEq] at h
      subst h
      exact ⟨fun hm => hm, fun d m heq => by simp at heq, fun _ => rfl⟩
  | iadd a =>
      simp only [applyVarOp, Var.iadd] at h
      split at h
      next =>
        simp only [Except.ok.injEq] at h
        subst h
        exact ⟨fun hm => hm, fun d m heq => by simp at heq, fun heq => by simp at heq⟩
      next => simp at h
  | isub a =>
      simp only [applyVarOp, Var.isub] at h
      split at h
      next =>
        simp only [Except.ok.injEq] at h
        subst h
        exact ⟨fun hm => hm, fun d m heq => by simp at heq, fun heq => by simp at heq⟩
      next => simp at h
  | imul a =>
      simp only [applyVarOp, Var.imul] at h
      split at h
      next =>
        simp only [Except.ok.injEq] at h
        subst h
        exact ⟨fun hm => hm, fun d m heq => by simp at heq, fun heq => by simp at heq⟩
      next => simp at h
  | idiv a =>
      simp only [applyVarOp, Var.idiv] at h
      split at h
      next =>
        simp only [Except.ok.injEq] at h
        subst h
        exact ⟨fun hm => hm, fun d m heq => by simp at heq, fun heq => by simp at heq⟩
      next => simp at h

/-- C10 witness: unload on a once-masked variable keeps the flag. -/
theorem masked_flag_monotone_witness :
    (cVar10.masked = true → (cVar10.unload).masked = true) ∧
    (∀ d m, VarOp.unload = VarOp.load d m → (m.isSome ∨ d.mask.isSome) →
      (cVar10.unload).masked = true) ∧
    (VarOp.unload = VarOp.unload → (cVar10.unload).masked = cVar10.masked) :=
  masked_flag_monotone cVar10 VarOp.unload cVar10.unload rfl

/-- C6 counterexample: for a variable without plot attributes whose
resolved display name is `foo`, `getPlotValues` with `checkname = bar`
succeeds and returns `foo` instead of failing - the name check only
runs when the variable carries plot attributes (the source comment
reads `only check plotname!`), so the claim as stated is false. -/
theorem getPlotValues_checkname_cex :
    getPlotValues cexVar6 none (some "bar") false false false id =
      Except.ok ([1], "u", "foo") := rfl

/-- C6 (amended): a supplied `checkunits` that does not match the
resolved units always makes `getPlotValues` fail with a variable-error
naming expected and found values; a supplied `checkname` that does not
match the resolved display name makes it fail only when the variable
carries plot attributes (without them the name is not checked). -/
theorem getPlotValues_checks (var : PlotVar) (cu cn : String) (cn2 cu2 : Option String)
    (ls lp la : Bool) (f : List ℚ → List ℚ) :
    (resolvedUnits var ≠ cu →
      ∃ m, getPlotValues var (some cu) cn2 ls lp la f =
        Except.error (PyError.variableError m)) ∧
    (∀ p, var.plot = some p → p.name ≠ cn →
      ∃ m, getPlotValues var cu2 (some cn) ls lp la f =
        Except.error (PyError.variableError m)) := by
  constructor
  · intro hu
    unfold getPlotValues
    cases hp : var.plot with
    | none =>
        simp only [resolvedUnits, hp] at hu
        simp [hp, hu]
    | some p =>
        simp only [resolvedUnits, hp] at hu
        cases cn2 with
        | none => simp [hp, hu]
        | some c0 =>
            by_cases hn : p.name = c0
            · simp [hp, hn, hu]
            · simp [hp, hn]
  · intro p hp hn
    unfold getPlotValues
    simp [hp, hn]

/-- C6 witness: the units check fires for a concrete variable without
plot attributes whose resolved units are `C` when `K` is expected. -/
theorem getPlotValues_checks_witness :
    ∃ m, getPlotValues wVar6 (some "K") none false false false id =
      Except.error (PyError.variableError m) :=
  (getPlotValues_checks wVar6 "K" "" none none false false false id).1 (by decide)

/-- Helper for C8: the tick loop fails whenever some tick is 8 or
larger (ValueError) or -7 or smaller (IndexError). -/
theorem logTicksLoop_err {power : Int} :
    ∀ (ticks : List Int) (acc : List String),
      (∃ i ∈ ticks, 8 ≤ i ∨ i ≤ -7) →
      ∃ e, logTicksLoop power acc ticks = Except.error e := by
  intro ticks
  induction ticks with
  | nil => rintro acc ⟨i, hi, _⟩; cases hi
  | cons j rest ih =>
      rintro acc ⟨i, hi, hbad⟩
      by_cases h8 : 8 ≤ j
      · exact ⟨PyError.valueError, by simp [logTicksLoop, h8]⟩
      · by_cases hlow : j - 2 < -8
        · exact ⟨PyError.indexError "list assignment index out of range",
            by simp [logTicksLoop, h8, hlow]⟩
        · have hi2 : i ∈ rest := by
            rcases List.mem_cons.mp hi with heq | hmem
            · subst heq; omega
            · exact hmem
          obtain ⟨e, he⟩ := ih (acc.set (pyIdx (j - 2)) (decorate power (toString j)))
            ⟨i, hi2, hbad⟩
          exact ⟨e, by simp [logTicksLoop, h8, hlow, he]⟩

/-- Helper for C8: with every tick between 2 and 7 the loop succeeds,
writes the decorated label of tick i at slot i-2, and leaves every
other slot of the accumulator unchanged. -/
theorem logTicksLoop_ok {power : Int} :
    ∀ (ticks : List Int) (acc : List String),
      acc.length = 8 → (∀ i ∈ ticks, 2 ≤ i ∧ i ≤ 7) →
      ∃ l, logTicksLoop power acc ticks = Except.ok l ∧ l.length = 8 ∧
        (∀ i ∈ ticks, l.get? (i - 2).toNat = some (decorate power (toString i))) ∧
        (∀ j : Nat, (∀ i ∈ ticks, (i - 2).toNat ≠ j) → l.get? j = acc.get? j) := by
  intro ticks
  induction ticks with
  | nil =>
      intro acc hlen _
      exact ⟨acc, rfl, hlen, fun i hi => absurd hi (List.not_mem_nil i), fun j _ => rfl⟩
  | cons i0 rest ih =>
      intro acc hlen hall
      have hi0 := hall i0 (List.mem_cons_self i0 rest)
      have h8 : ¬ 8 ≤ i0 := by omega
      have hlow : ¬ (i0 - 2 < -8) := by omega
      have hpy : pyIdx (i0 - 2) = (i0 - 2).toNat := by
        unfold pyIdx
        rw [if_neg (by omega : ¬ i0 - 2 < 0)]
      have hlt : (i0 - 2).toNat < acc.length := by omega
      obtain ⟨l, hl, hllen, hmem, hpres⟩ :=
        ih (acc.set (pyIdx (i0 - 2)) (decorate power (toString i0)))
          (by rw [List.length_set]; exact hlen)
          (fun i hi => hall i (List.mem_cons_of_mem i0 hi))
      refine ⟨l, ?_, hllen, ?_, ?_⟩
      · simp [logTicksLoop, h8, hlow, hl]
      · intro i hi
        rcases List.mem_cons.mp hi with heq | hmem2
        · subst heq
          by_cases hcol : ∀ i2 ∈ rest, (i2 - 2).toNat ≠ (i - 2).toNat
          · rw [hpres ((i - 2).toNat) hcol, hpy]
            exact List.get?_set_eq_of_lt _ hlt
          · push_neg at hcol
            obtain ⟨i2, hi2, heq2⟩ := hcol
            have hb := hall i2 (List.mem_cons_of_mem i hi2)
            have : i2 = i := by omega
            subst this
            exact hmem i2 hi2
        · exact hmem i hmem2
      · intro j hj
        have hj0 : (i0 - 2).toNat ≠ j := hj i0 (List.mem_cons_self i0 rest)
        rw [hpres j (fun i hi => hj i (List.mem_cons_of_mem i0 hi)), hpy]
        exact List.get?_set_ne _ _ hj0

/-- C8 (amended): `logTicks` succeeds for every ticks list whose
elements are integers between 2 and 7, assigning each listed tick the
label of its digit at position tick minus 2; it fails for every ticks
element that is 8 or larger (a `ValueError`; integers of -7 or below
give an `IndexError`, while integers between -6 and 1 succeed with
the label written at a Python-negative position, and non-integer
elements are a `ValueError` in the source). -/
theorem logTicks_amended (ticks : List Int) :
    ((∀ i ∈ ticks, 2 ≤ i ∧ i ≤ 7) →
      ∃ l, logTicks ticks 0 = Except.ok l ∧ l.length = 8 ∧
        ∀ i ∈ ticks, l.get? (i - 2).toNat = some (toString i)) ∧
    ((∃ i ∈ ticks, 8 ≤ i) → ∃ e, logTicks ticks 0 = Except.error e) := by
  constructor
  · intro hall
    obtain ⟨l, hl, hlen, hmem, _⟩ :=
      @logTicksLoop_ok 0 ticks (List.replicate 8 "") (by simp) hall
    exact ⟨l, hl, hlen, fun i hi => by simpa [decorate] using hmem i hi⟩
  · rintro ⟨i, hi, h8⟩
    exact logTicksLoop_err ticks (List.replicate 8 "") ⟨i, hi, Or.inl h8⟩

/-- C8 witness: the amended statement at the concrete list [2, 5]. -/
theorem logTicks_amended_witness :
    ∃ l, logTicks [2, 5] 0 = Except.ok l ∧ l.length = 8 ∧
      ∀ i ∈ ([2, 5] : List Int), l.get? (i - 2).toNat = some (toString i) :=
  (logTicks_amended [2, 5]).1 (by decide)

/-- Helper for C3: a variable whose axes already agree with a payload
shape reloads that payload after an unload, recovering the recorded
shape and the payload itself. -/
theorem load_roundtrip (w : Var) (P : NDArray)
    (hlen : w.axes.length = P.shape.length)
    (hidem : updateAxesLengths w.axes P.shape = Except.ok w.axes)
    (hshape : w.shape = some P.shape) :
    ∃ v2, (w.unload).load P none = Except.ok v2 ∧ v2.shape = w.shape ∧
      v2.data_array = some P := by
  obtain ⟨nm, un, axes, da, dt, sh, mk0, at0, pl0⟩ := w
  dsimp only at hlen hidem hshape
  refine ⟨⟨nm, un, axes, some P, true, some P.shape,
    if P.isMa then true else mk0, at0, pl0⟩, ?_, ?_, rfl⟩
  · dsimp only [Var.unload, Var.load, bind, Except.bind]
    rw [if_pos hlen, hidem]
  · dsimp only
    exact hshape.symm

/-- C3: for every `Variable` successfully constructed with payload P
over axes A, calling `unload()` followed by `load(P)` succeeds and
restores the original shape and a payload element-wise equal to P. -/
theorem unload_load_restores (name units : String) (axs : List Axis) (P : NDArray)
    (mask : Option (List Bool)) (atts plotatts : Option (List (String × String))) (v : Var)
    (h : Variable.init name units (some (AxesArg.axisObjs axs)) (some P) mask atts plotatts =
      Except.ok v) :
    ∃ v2, (v.unload).load P none = Except.ok v2 ∧ v2.shape = v.shape ∧
      v2.data_array = some P := by
  by_cases hlen : axs.length = P.shape.length
  case neg =>
    exfalso
    simp only [Variable.init, axesArgLength] at h
    rw [if_pos hlen] at h
    simp at h
  case pos =>
    simp only [Variable.init, axesArgLength] at h
    rw [if_neg (fun hc => hc hlen)] at h
    simp only [initWithAxes, bind, Except.bind] at h
    cases hup : updateAxesLengths axs P.shape with
    | error e => rw [hup] at h; simp at h
    | ok axs2 =>
        rw [hup] at h
        dsimp only at h
        have hlen2 : axs2.length = P.shape.length := by
          rw [updateAxesLengths_length hup]
          exact hlen
        have hidem := updateAxesLengths_idem hup
        cases hld : Var.load ⟨name, units, axs2, none, false, some P.shape, false, [], []⟩ P mask with
        | error e => rw [hld] at h; simp at h
        | ok v1 =>
            rw [hld] at h
            simp only [Except.ok.injEq] at h
            subst h
            simp only [Var.load, hlen2, if_true, bind, Except.bind, hidem] at hld
            simp only [Except.ok.injEq] at hld
            subst hld
            exact load_roundtrip _ P hlen2 hidem rfl

/-- C3 witness: the round trip at a concrete construction of a
one-axis variable with a two-element payload. -/
theorem unload_load_restores_witness :
    ∃ v2, (cVar3.unload).load cP3 none = Except.ok v2 ∧ v2.shape = cVar3.shape ∧
      v2.data_array = some cP3 :=
  unload_load_restores "test" "n/a" [cAx3] cP3 none none none cVar3 rfl

end GeoPy
